import Mathlib

/-!
A shallow embedding of the interpreter capability probing performed by the
repository scripts verify-superclaude.py, test-simple-fix.py and
test-bridge-functionality.py.

Child-process behaviour is external to the scripts, so it is supplied here as
an explicit environment: a function from an interpreter path to the outcome of
asking the operating system to spawn that interpreter.  The per-candidate
control flow of each script (its try/except structure, its success test, its
printed diagnostics) is translated directly; the printed per-candidate
diagnostics become the diagnostic and metadata fields of a ProbeResult.
-/

/-- A candidate interpreter: a display name and an interpreter path, as in the
environments list of verify-superclaude.py (lines 48-53). -/
structure Candidate where
  name : String
  path : String
deriving DecidableEq, Repr

/-- The notional behaviour of a child process once spawned: how long it runs,
its exit code and its captured standard output and standard error. -/
structure ChildBehavior where
  duration : Nat
  returncode : Int
  stdout : String
  stderr : String
deriving DecidableEq, Repr

/-- What the operating system does when asked to spawn a given interpreter:
the executable may be missing (Python raises FileNotFoundError), spawning may
fail with some other exception, or a child process runs with some behaviour. -/
inductive SpawnResult where
  | notFound
  | spawnExn (msg : String)
  | runs (behavior : ChildBehavior)
deriving DecidableEq, Repr

/-- The outcome of one subprocess.run call as seen by the calling script. -/
inductive RunOutcome where
  | fileNotFound
  | exn (msg : String)
  | timeoutExpired
  | completed (returncode : Int) (stdout stderr : String)
deriving DecidableEq, Repr

/-- Semantics of subprocess.run: with no timeout argument the child always
runs to completion (Python never raises TimeoutExpired in that case); with
timeout t, a child whose duration exceeds t is forcibly terminated and
TimeoutExpired is raised.  The timeout argument is omitted by every
candidate-probing call in the repository and is 5 in the test-command loop of
test-bridge-functionality.py (line 43). -/
def subprocessRun (sp : SpawnResult) (timeout : Option Nat) : RunOutcome :=
  match sp with
  | .notFound => .fileNotFound
  | .spawnExn m => .exn m
  | .runs b =>
      match timeout with
      | none => .completed b.returncode b.stdout b.stderr
      | some t =>
          if t < b.duration then .timeoutExpired
          else .completed b.returncode b.stdout b.stderr

/-- The record produced for one candidate by check_superclaude
(verify-superclaude.py lines 9-43): the boolean it returns, together with the
diagnostic text it prints on failure and the details text it prints on
success. -/
structure ProbeResult where
  candidate : Candidate
  success : Bool
  diagnostic : Option String
  metadata : Option String
deriving DecidableEq, Repr

/-- The report for a whole candidate list: one ProbeResult per candidate plus
the first successful candidate, if any. -/
structure ProbeReport where
  results : List ProbeResult
  selected : Option Candidate
deriving DecidableEq, Repr

/-- The environment a probe runs against: for each interpreter path, what
spawning it on the import-check command does, and what spawning it on the
follow-up details command does. -/
structure ProbeEnv where
  importRun : String → SpawnResult
  detailsRun : String → SpawnResult

/-- Whether the two-character sentinel OK occurs somewhere in a character
list. -/
def charsHaveOK : List Char → Bool
  | 'O' :: 'K' :: _ => true
  | _ :: rest => charsHaveOK rest
  | [] => false

/-- The sentinel test of verify-superclaude.py line 18: the literal OK occurs
somewhere in the captured standard output. -/
def sentinelIn (s : String) : Bool :=
  charsHaveOK s.toList

/-- check_superclaude (verify-superclaude.py lines 9-43).  Runs the
import-check command with no timeout.  On exit code 0 with the sentinel in
stdout it runs the details command (also inside the try block, so a raising
details call falls into the exception handlers); otherwise it reports failure
with the stripped stderr when stderr is non-empty.  FileNotFoundError and any
other exception are caught and reported as failure. -/
def check_superclaude (env : ProbeEnv) (c : Candidate) : ProbeResult :=
  match subprocessRun (env.importRun c.path) none with
  | .completed rc out err =>
      if rc = 0 ∧ sentinelIn out = true then
        match subprocessRun (env.detailsRun c.path) none with
        | .completed drc dout _ =>
            { candidate := c, success := true, diagnostic := none,
              metadata := if drc = 0 then some dout.trim else none }
        | .fileNotFound =>
            { candidate := c, success := false,
              diagnostic := some ("Python not found at " ++ c.path),
              metadata := none }
        | .exn m =>
            { candidate := c, success := false,
              diagnostic := some ("Error - " ++ m), metadata := none }
        | .timeoutExpired =>
            { candidate := c, success := false,
              diagnostic := some ("Error - TimeoutExpired"), metadata := none }
      else
        { candidate := c, success := false,
          diagnostic := if err = "" then none else some err.trim,
          metadata := none }
  | .fileNotFound =>
      { candidate := c, success := false,
        diagnostic := some ("Python not found at " ++ c.path), metadata := none }
  | .exn m =>
      { candidate := c, success := false,
        diagnostic := some ("Error - " ++ m), metadata := none }
  | .timeoutExpired =>
      { candidate := c, success := false,
        diagnostic := some ("Error - TimeoutExpired"), metadata := none }

/-- The probe over a candidate list: one check_superclaude call per candidate
in input order (the environments loop of verify-superclaude.py lines 55-59),
with the selected candidate computed as the first success in input order (the
working_python rule of test-simple-fix.py lines 31-34 and the python_cmd rule
of test-bridge-functionality.py lines 17-25). -/
def probe (env : ProbeEnv) (candidates : List Candidate) : ProbeReport :=
  let results := candidates.map (check_superclaude env)
  { results := results,
    selected := (results.find? (fun r => r.success)).map (fun r => r.candidate) }

/-- The python_cmd selection loop of test-bridge-functionality.py lines 16-24:
skip empty tokens, run the import command with no timeout, take the first
interpreter whose run completes with exit code 0 and break; any exception is
swallowed by the bare except and the loop continues. -/
def pythonCmdLoop (run : String → SpawnResult) : List String → Option String
  | [] => none
  | py :: rest =>
      if py = "" then pythonCmdLoop run rest
      else
        match subprocessRun (run py) none with
        | .completed rc _ _ =>
            if rc = 0 then some py else pythonCmdLoop run rest
        | _ => pythonCmdLoop run rest

/-- One status line printed by the detection loop of test-simple-fix.py. -/
inductive FixEntry where
  | notSet (name : String)
  | found (name path : String)
  | missing (name path : String)
  | inaccessible (name path : String)
deriving DecidableEq, Repr

/-- Python truthiness of an optional string: None and the empty string are
falsy.  Used for the `if not python_path` and `if not working_python` tests of
test-simple-fix.py lines 20 and 33. -/
def strOptFalsy : Option String → Bool
  | none => true
  | some s => s = ""

/-- The detection loop of test-simple-fix.py lines 18-38, accumulating the
printed status lines and the working_python variable.  A falsy path prints
"Not set" and continues without spawning; otherwise the import command is run
with no timeout; exit code 0 records the path as working_python when no
earlier candidate did (no break: the loop scans every candidate); any
exception is swallowed and printed as not accessible. -/
def simpleFixLoop (run : String → SpawnResult) :
    List (String × Option String) → Option String → List FixEntry × Option String
  | [], wp => ([], wp)
  | (n, p) :: rest, wp =>
      match p with
      | none =>
          let r := simpleFixLoop run rest wp
          (FixEntry.notSet n :: r.1, r.2)
      | some path =>
          if path = "" then
            let r := simpleFixLoop run rest wp
            (FixEntry.notSet n :: r.1, r.2)
          else
            match subprocessRun (run path) none with
            | .completed rc _ _ =>
                if rc = 0 then
                  let wp2 := if strOptFalsy wp then some path else wp
                  let r := simpleFixLoop run rest wp2
                  (FixEntry.found n path :: r.1, r.2)
                else
                  let r := simpleFixLoop run rest wp
                  (FixEntry.missing n path :: r.1, r.2)
            | _ =>
                let r := simpleFixLoop run rest wp
                (FixEntry.inaccessible n path :: r.1, r.2)

/-- The outcome printed for one entry of the test_commands loop of
test-bridge-functionality.py lines 40-54. -/
inductive TestCmdOutcome where
  | ok (preview : Option String)
  | failed (code : Int) (err : Option String)
  | timedOut
  | errored (msg : String)
deriving DecidableEq, Repr

/-- One iteration of the test_commands loop of test-bridge-functionality.py
lines 41-54: subprocess.run with timeout 5; exit code 0 prints a 100-character
stdout preview; a non-zero exit prints the 200-character truncated stderr;
TimeoutExpired prints that the command timed out. -/
def runTestCommand (sp : SpawnResult) : TestCmdOutcome :=
  match subprocessRun sp (some 5) with
  | .completed rc out err =>
      if rc = 0 then .ok (if out = "" then none else some (out.take 100))
      else .failed rc (if err = "" then none else some (err.take 200))
  | .timeoutExpired => .timedOut
  | .fileNotFound => .errored "FileNotFoundError"
  | .exn m => .errored m

/-- Environment and candidate list for concrete evaluations: the path
python3 raises FileNotFoundError, every other path completes with exit code 0
and the sentinel on stdout. -/
def envW1 : ProbeEnv :=
  { importRun := fun p =>
      if p = "python3" then SpawnResult.notFound
      else SpawnResult.runs
        { duration := 1, returncode := 0, stdout := "OK", stderr := "" },
    detailsRun := fun _ =>
      SpawnResult.runs
        { duration := 1, returncode := 0, stdout := "/usr/bin/python",
          stderr := "" } }

/-- A three-candidate list in which, under envW1, index 1 is the first
success and index 2 also succeeds. -/
def candsW1 : List Candidate :=
  [{ name := "System Python", path := "python3" },
   { name := "Project venv", path := "venv/bin/python" },
   { name := "Parent venv", path := "../venv/bin/python" }]

/-- A second environment that agrees with envW1 on every path occurring in
candsW1 but is a syntactically different function (it differs on other
paths). -/
def envW2 : ProbeEnv :=
  { importRun := fun p =>
      if p = "python3" then SpawnResult.notFound
      else if p = "some/other/interpreter" then SpawnResult.spawnExn "changed"
      else SpawnResult.runs
        { duration := 1, returncode := 0, stdout := "OK", stderr := "" },
    detailsRun := fun _ =>
      SpawnResult.runs
        { duration := 1, returncode := 0, stdout := "/usr/bin/python",
          stderr := "" } }

/-- Whether asking the operating system to spawn a child results in a Python
exception instead of a running child process. -/
def spawnRaises : SpawnResult → Bool
  | .runs _ => false
  | _ => true

/-- The first candidate of the environments list of verify-superclaude.py. -/
def cand0 : Candidate := { name := "System Python", path := "python3" }

/-- Environment for concrete evaluations: every import check completes with
exit code 0 and the sentinel on stdout, but asking for the follow-up details
raises FileNotFoundError. -/
def envC8 : ProbeEnv :=
  { importRun := fun _ => SpawnResult.runs
      { duration := 1, returncode := 0, stdout := "OK", stderr := "" },
    detailsRun := fun _ => SpawnResult.notFound }

/-- Environment for concrete evaluations: every import check completes with
exit code 0 and the sentinel on stdout, but asking for the follow-up details
raises a non-FileNotFoundError exception. -/
def envC3 : ProbeEnv :=
  { importRun := fun _ => SpawnResult.runs
      { duration := 1, returncode := 0, stdout := "OK", stderr := "" },
    detailsRun := fun _ => SpawnResult.spawnExn "boom" }

/-- Environment for concrete evaluations: every child takes 1000000 time
units, then exits 0 with the sentinel on stdout. -/
def envC5 : ProbeEnv :=
  { importRun := fun _ => SpawnResult.runs
      { duration := 1000000, returncode := 0, stdout := "OK", stderr := "" },
    detailsRun := fun _ => SpawnResult.runs
      { duration := 1000000, returncode := 0, stdout := "/usr/bin/python",
        stderr := "" } }

/-- Environment for concrete evaluations: the import check succeeds and the
details invocation runs but exits with code 1. -/
def envW8 : ProbeEnv :=
  { importRun := fun _ => SpawnResult.runs
      { duration := 1, returncode := 0, stdout := "OK", stderr := "" },
    detailsRun := fun _ => SpawnResult.runs
      { duration := 1, returncode := 1, stdout := "", stderr := "boom" } }

/-- check_superclaude always reports on the candidate it was given: every
branch of verify-superclaude.py lines 9-43 concerns the same (env_name,
python_path) pair. -/
theorem check_superclaude_candidate (env : ProbeEnv) (c : Candidate) :
    (check_superclaude env c).candidate = c := by
  unfold check_superclaude
  split
  · split
    · split <;> rfl
    · rfl
  · rfl
  · rfl
  · rfl

/-- If index i is the first index at which p holds, find? returns the element
at index i. -/
theorem find_first_true {α : Type} (p : α → Bool) (l : List α) :
    ∀ (i : Nat) (h : i < l.length),
      p (l.get ⟨i, h⟩) = true →
      (∀ j (hj : j < l.length), j < i → p (l.get ⟨j, hj⟩) = false) →
      l.find? p = some (l.get ⟨i, h⟩) := by
  induction l with
  | nil => intro i h _ _; exact absurd h (Nat.not_lt_zero i)
  | cons a t ih =>
      intro i h hp hmin
      cases i with
      | zero => exact List.find?_cons_of_pos t hp
      | succ i =>
          have h0 : p a = false := hmin 0 (Nat.succ_pos _) (Nat.succ_pos _)
          rw [List.find?_cons_of_neg t (by simp [h0])]
          exact ih i (Nat.lt_of_succ_lt_succ h) hp
            (fun j hj hji =>
              hmin (j + 1) (Nat.succ_lt_succ hj) (Nat.succ_lt_succ hji))

/-- C1: if the candidate at index i succeeds and no candidate at a smaller
index succeeds, the selected candidate of the ProbeReport returned by probe is
the candidate at index i, with no condition on the candidates after index i. -/
theorem probe_selects_first_success (env : ProbeEnv) (cs : List Candidate)
    (i : Nat) (h : i < cs.length)
    (hi : (check_superclaude env (cs.get ⟨i, h⟩)).success = true)
    (hmin : ∀ j (hj : j < cs.length), j < i →
      (check_superclaude env (cs.get ⟨j, hj⟩)).success = false) :
    (probe env cs).selected = some (cs.get ⟨i, h⟩) := by
  have hlen : i < (cs.map (check_superclaude env)).length := by
    simpa using h
  have hget : (cs.map (check_superclaude env)).get ⟨i, hlen⟩ =
      check_superclaude env (cs.get ⟨i, h⟩) := by
    simp
  have hfind : (cs.map (check_superclaude env)).find? (fun r => r.success) =
      some ((cs.map (check_superclaude env)).get ⟨i, hlen⟩) := by
    apply find_first_true (fun r => r.success) _ i hlen
    · rw [hget]; exact hi
    · intro j hj hji
      have hj' : j < cs.length := by simpa using hj
      have : (cs.map (check_superclaude env)).get ⟨j, hj⟩ =
          check_superclaude env (cs.get ⟨j, hj'⟩) := by
        simp
      rw [this]
      exact hmin j hj' hji
  show ((cs.map (check_superclaude env)).find? (fun r => r.success)).map
      (fun r => r.candidate) = some (cs.get ⟨i, h⟩)
  rw [hfind, hget]
  simp [check_superclaude_candidate]

/-- Witness for C1 at a concrete input: under envW1 candidate 0 fails,
candidates 1 and 2 both succeed, and the selected candidate is candidate 1. -/
theorem probe_selects_first_success_witness :
    (probe envW1 candsW1).selected =
      some { name := "Project venv", path := "venv/bin/python" } :=
  probe_selects_first_success envW1 candsW1 1 (by decide) (by decide)
    (fun j hj hji => by
      have hj0 : j = 0 := Nat.lt_one_iff.mp hji
      subst hj0
      show (check_superclaude envW1
        { name := "System Python", path := "python3" }).success = false
      decide)

/-- C2: for every non-empty candidate list, probe returns one ProbeResult per
input candidate, in input order: the result list has the same length as the
candidate list and projecting each result to its candidate recovers the input
list. -/
theorem probe_results_one_per_candidate (env : ProbeEnv) (cs : List Candidate)
    (hne : cs ≠ []) :
    (probe env cs).results.length = cs.length ∧
    (probe env cs).results.map (fun r => r.candidate) = cs := by
  constructor
  · show (cs.map (check_superclaude env)).length = cs.length
    simp
  · show (cs.map (check_superclaude env)).map (fun r => r.candidate) = cs
    rw [List.map_map]
    exact List.map_id'' (fun c => check_superclaude_candidate env c) cs

/-- Witness for C2 at a concrete input: the three-candidate list candsW1 is
non-empty and its report has three results projecting back to candsW1. -/
theorem probe_results_one_per_candidate_witness :
    candsW1 ≠ [] ∧
    ((probe envW1 candsW1).results.length = candsW1.length ∧
     (probe envW1 candsW1).results.map (fun r => r.candidate) = candsW1) :=
  ⟨by decide, probe_results_one_per_candidate envW1 candsW1 (by decide)⟩

/-- C4: a candidate whose path does not resolve to an executable program (the
spawn attempt ends in FileNotFoundError, so no child process runs) is recorded
success=false with the not-found diagnostic by check_superclaude; the probe
still yields one result per candidate (the except handlers of
verify-superclaude.py lines 38-43 absorb the error, and probe is a total
function, so nothing propagates); and the python_cmd loop of
test-bridge-functionality.py swallows the exception with its bare except and
continues with the remaining candidates. -/
theorem probe_missing_executable_recovered (env : ProbeEnv) (c : Candidate)
    (cs : List Candidate) (run : String → SpawnResult) (py : String)
    (rest : List String)
    (hnf : env.importRun c.path = SpawnResult.notFound)
    (hnf2 : run py = SpawnResult.notFound) (hpy : py ≠ "") :
    (check_superclaude env c).success = false ∧
    (check_superclaude env c).diagnostic =
      some ("Python not found at " ++ c.path) ∧
    (probe env cs).results.length = cs.length ∧
    pythonCmdLoop run (py :: rest) = pythonCmdLoop run rest := by
  have hc : check_superclaude env c =
      { candidate := c, success := false,
        diagnostic := some ("Python not found at " ++ c.path),
        metadata := none } := by
    unfold check_superclaude
    rw [hnf]
    rfl
  refine ⟨by rw [hc], by rw [hc], by simp [probe], ?_⟩
  simp only [pythonCmdLoop, hnf2, if_neg hpy]
  rfl

/-- Witness for C4 at a concrete input: under envW1 the path python3 raises
FileNotFoundError; the candidate is reported success=false with the not-found
diagnostic, all three candidates still get results, and the python_cmd loop
moves past the broken candidate. -/
theorem probe_missing_executable_recovered_witness :
    envW1.importRun cand0.path = SpawnResult.notFound ∧
    ((check_superclaude envW1 cand0).success = false ∧
     (check_superclaude envW1 cand0).diagnostic =
       some ("Python not found at " ++ cand0.path) ∧
     (probe envW1 candsW1).results.length = candsW1.length ∧
     pythonCmdLoop envW1.importRun ("python3" :: ["venv/bin/python"]) =
       pythonCmdLoop envW1.importRun ["venv/bin/python"]) :=
  ⟨by decide,
   probe_missing_executable_recovered envW1 cand0 candsW1 envW1.importRun
     "python3" ["venv/bin/python"] (by decide) (by decide) (by decide)⟩

/-- C7: every ProbeResult produced by probe satisfies the invariant that a
successful entry carries no diagnostic text and a failed entry carries no
metadata: every branch of check_superclaude sets diagnostic to none when it
returns True and metadata to none when it returns False. -/
theorem probe_result_invariant (env : ProbeEnv) (cs : List Candidate)
    (r : ProbeResult) (hr : r ∈ (probe env cs).results) :
    (r.success = true → r.diagnostic = none) ∧
    (r.success = false → r.metadata = none) := by
  have hr' : r ∈ cs.map (check_superclaude env) := hr
  rcases List.mem_map.mp hr' with ⟨c, _, hc⟩
  subst hc
  unfold check_superclaude
  split
  · split
    · split <;> simp
    · simp
  · simp
  · simp
  · simp

/-- Witness for C7 at a concrete input: the result for the second candidate
of candsW1 under envW1 is in the report and satisfies both implications. -/
theorem probe_result_invariant_witness :
    ((check_superclaude envW1
        { name := "Project venv", path := "venv/bin/python" }).success = true →
      (check_superclaude envW1
        { name := "Project venv", path := "venv/bin/python" }).diagnostic =
        none) ∧
    ((check_superclaude envW1
        { name := "Project venv", path := "venv/bin/python" }).success = false →
      (check_superclaude envW1
        { name := "Project venv", path := "venv/bin/python" }).metadata =
        none) :=
  probe_result_invariant envW1 candsW1
    (check_superclaude envW1 { name := "Project venv", path := "venv/bin/python" })
    (List.Mem.tail _ (List.Mem.head _))

/-- check_superclaude consults the environment only at the candidate's own
path: two environments that agree there produce the same result. -/
theorem check_superclaude_congr (env1 env2 : ProbeEnv) (c : Candidate)
    (h1 : env1.importRun c.path = env2.importRun c.path)
    (h2 : env1.detailsRun c.path = env2.detailsRun c.path) :
    check_superclaude env1 c = check_superclaude env2 c := by
  unfold check_superclaude
  rw [h1, h2]

/-- C9: two probe calls over the same candidate list against environments
that agree on every candidate path (the module is stably present or absent
for each candidate, nothing changed between the calls) select the same
candidate.  The scripts keep no state between calls, so a call is a pure
function of the candidate list and the environment. -/
theorem probe_idempotent_selected (env1 env2 : ProbeEnv) (cs : List Candidate)
    (h1 : ∀ c ∈ cs, env1.importRun c.path = env2.importRun c.path)
    (h2 : ∀ c ∈ cs, env1.detailsRun c.path = env2.detailsRun c.path) :
    (probe env1 cs).selected = (probe env2 cs).selected := by
  have hmap : cs.map (check_superclaude env1) = cs.map (check_superclaude env2) :=
    List.map_congr_left
      (fun c hc => check_superclaude_congr env1 env2 c (h1 c hc) (h2 c hc))
  show ((cs.map (check_superclaude env1)).find? (fun r => r.success)).map
      (fun r => r.candidate) =
    ((cs.map (check_superclaude env2)).find? (fun r => r.success)).map
      (fun r => r.candidate)
  rw [hmap]

/-- Witness for C9 at a concrete input: envW1 and envW2 agree on all three
paths of candsW1 (envW2 differs from envW1 only on an unrelated path), and
both probes select the second candidate. -/
theorem probe_idempotent_selected_witness :
    (probe envW1 candsW1).selected = (probe envW2 candsW1).selected :=
  probe_idempotent_selected envW1 envW2 candsW1 (by decide) (by decide)

/-- Counterexample to C3 as stated: the import-check child exits 0 with the
sentinel OK on its stdout, yet check_superclaude records success = false,
because the follow-up details invocation (which sits inside the same try
block, verify-superclaude.py lines 21-28) raises and the exception handler
returns False.  So success = true is not equivalent to exit 0 plus sentinel
present. -/
theorem check_superclaude_success_iff_refuted :
    envC3.importRun cand0.path =
      SpawnResult.runs
        { duration := 1, returncode := 0, stdout := "OK", stderr := "" } ∧
    sentinelIn "OK" = true ∧
    (check_superclaude envC3 cand0).success = false := by
  decide

/-- Branch equation: import check completes with exit 0 and the sentinel, and
the details invocation runs, so check_superclaude returns a success record
whose metadata is present exactly when the details child exits 0. -/
theorem check_eq_success (env : ProbeEnv) (c : Candidate)
    (b db : ChildBehavior)
    (hb : env.importRun c.path = SpawnResult.runs b)
    (hcond : b.returncode = 0 ∧ sentinelIn b.stdout = true)
    (hdb : env.detailsRun c.path = SpawnResult.runs db) :
    check_superclaude env c =
      { candidate := c, success := true, diagnostic := none,
        metadata := if db.returncode = 0 then some db.stdout.trim else none } := by
  unfold check_superclaude
  rw [hb, hdb]
  show (if b.returncode = 0 ∧ sentinelIn b.stdout = true then
      ({ candidate := c, success := true, diagnostic := none,
         metadata := if db.returncode = 0 then some db.stdout.trim else none } :
        ProbeResult)
    else
      { candidate := c, success := false,
        diagnostic := if b.stderr = "" then none else some b.stderr.trim,
        metadata := none }) = _
  exact if_pos hcond

/-- Branch equation: import check completes but the exit code is non-zero or
the sentinel is absent, so check_superclaude returns a failure record whose
diagnostic is the stripped stderr when stderr is non-empty. -/
theorem check_eq_fail (env : ProbeEnv) (c : Candidate) (b : ChildBehavior)
    (hb : env.importRun c.path = SpawnResult.runs b)
    (hcond : ¬ (b.returncode = 0 ∧ sentinelIn b.stdout = true)) :
    check_superclaude env c =
      { candidate := c, success := false,
        diagnostic := if b.stderr = "" then none else some b.stderr.trim,
        metadata := none } := by
  unfold check_superclaude
  rw [hb]
  show (if b.returncode = 0 ∧ sentinelIn b.stdout = true then
      ((match subprocessRun (env.detailsRun c.path) none with
        | .completed drc dout _ =>
            { candidate := c, success := true, diagnostic := none,
              metadata := if drc = 0 then some dout.trim else none }
        | .fileNotFound =>
            { candidate := c, success := false,
              diagnostic := some ("Python not found at " ++ c.path),
              metadata := none }
        | .exn m =>
            { candidate := c, success := false,
              diagnostic := some ("Error - " ++ m), metadata := none }
        | .timeoutExpired =>
            { candidate := c, success := false,
              diagnostic := some ("Error - TimeoutExpired"),
              metadata := none }) : ProbeResult)
    else
      { candidate := c, success := false,
        diagnostic := if b.stderr = "" then none else some b.stderr.trim,
        metadata := none }) = _
  exact if_neg hcond

/-- Branch equation: import check completes with exit 0 and the sentinel, but
the details invocation raises, so the exception handlers of
verify-superclaude.py lines 38-43 return False for the candidate. -/
theorem check_details_raise (env : ProbeEnv) (c : Candidate)
    (b : ChildBehavior)
    (hb : env.importRun c.path = SpawnResult.runs b)
    (hcond : b.returncode = 0 ∧ sentinelIn b.stdout = true)
    (hdb : spawnRaises (env.detailsRun c.path) = true) :
    (check_superclaude env c).success = false := by
  cases hd : env.detailsRun c.path with
  | runs db => rw [hd] at hdb; simp [spawnRaises] at hdb
  | notFound =>
      unfold check_superclaude
      rw [hb, hd]
      show (if b.returncode = 0 ∧ sentinelIn b.stdout = true then
          ({ candidate := c, success := false,
             diagnostic := some ("Python not found at " ++ c.path),
             metadata := none } : ProbeResult)
        else
          { candidate := c, success := false,
            diagnostic := if b.stderr = "" then none else some b.stderr.trim,
            metadata := none }).success = false
      split <;> rfl
  | spawnExn m =>
      unfold check_superclaude
      rw [hb, hd]
      show (if b.returncode = 0 ∧ sentinelIn b.stdout = true then
          ({ candidate := c, success := false,
             diagnostic := some ("Error - " ++ m),
             metadata := none } : ProbeResult)
        else
          { candidate := c, success := false,
            diagnostic := if b.stderr = "" then none else some b.stderr.trim,
            metadata := none }).success = false
      split <;> rfl

/-- C3 amended: when the import-check child runs, check_superclaude records
success = true iff the child exits 0, the sentinel is in its stdout, and the
follow-up details invocation does not raise (it sits inside the same try
block); when the child exits non-zero or the sentinel is absent it records
success = false with the stripped but NOT truncated stderr as diagnostic when
stderr is non-empty, and no diagnostic when stderr is empty.  Truncation to
200 characters exists only in the post-selection test-command loop, see
runTestCommand. -/
theorem check_superclaude_success_iff (env : ProbeEnv) (c : Candidate)
    (b : ChildBehavior)
    (hb : env.importRun c.path = SpawnResult.runs b) :
    ((check_superclaude env c).success = true ↔
      (b.returncode = 0 ∧ sentinelIn b.stdout = true ∧
        spawnRaises (env.detailsRun c.path) = false)) ∧
    (¬ (b.returncode = 0 ∧ sentinelIn b.stdout = true) →
      (check_superclaude env c).diagnostic =
        (if b.stderr = "" then none else some b.stderr.trim)) := by
  constructor
  · constructor
    · intro hs
      by_cases hcond : b.returncode = 0 ∧ sentinelIn b.stdout = true
      · cases hd : env.detailsRun c.path with
        | runs db => exact ⟨hcond.1, hcond.2, rfl⟩
        | notFound =>
            have hf := check_details_raise env c b hb hcond (by rw [hd]; rfl)
            rw [hf] at hs
            exact absurd hs (by simp)
        | spawnExn m =>
            have hf := check_details_raise env c b hb hcond (by rw [hd]; rfl)
            rw [hf] at hs
            exact absurd hs (by simp)
      · rw [check_eq_fail env c b hb hcond] at hs
        exact absurd hs (by simp)
    · intro hrhs
      cases hd : env.detailsRun c.path with
      | runs db =>
          rw [check_eq_success env c b db hb ⟨hrhs.1, hrhs.2.1⟩ hd]
      | notFound =>
          have := hrhs.2.2
          rw [hd] at this
          simp [spawnRaises] at this
      | spawnExn m =>
          have := hrhs.2.2
          rw [hd] at this
          simp [spawnRaises] at this
  · intro hneg
    rw [check_eq_fail env c b hb hneg]

/-- Witness for the amended C3 at a concrete input: under envW1 the path
venv/bin/python runs a child that exits 0 with stdout OK, the details call
runs, and the equivalence and the diagnostic implication hold there. -/
theorem check_superclaude_success_iff_witness :
    envW1.importRun "venv/bin/python" =
      SpawnResult.runs
        { duration := 1, returncode := 0, stdout := "OK", stderr := "" } ∧
    (((check_superclaude envW1
        { name := "Project venv", path := "venv/bin/python" }).success = true ↔
      ((0 : Int) = 0 ∧ sentinelIn "OK" = true ∧
        spawnRaises (envW1.detailsRun "venv/bin/python") = false)) ∧
     (¬ ((0 : Int) = 0 ∧ sentinelIn "OK" = true) →
      (check_superclaude envW1
        { name := "Project venv", path := "venv/bin/python" }).diagnostic =
        (if ("" : String) = "" then none else some ("" : String).trim))) :=
  ⟨by decide,
   check_superclaude_success_iff envW1
     { name := "Project venv", path := "venv/bin/python" }
     { duration := 1, returncode := 0, stdout := "OK", stderr := "" }
     (by decide)⟩

/-- Counterexample to C5 as stated: check_superclaude passes no timeout to
subprocess.run (verify-superclaude.py lines 11-16), so a child that takes
1000000 time units is not terminated: it runs to completion and the candidate
is recorded success = true, never as timed out. -/
theorem probe_unbounded_refuted :
    envC5.importRun cand0.path =
      SpawnResult.runs
        { duration := 1000000, returncode := 0, stdout := "OK",
          stderr := "" } ∧
    subprocessRun (envC5.importRun cand0.path) none =
      RunOutcome.completed 0 "OK" "" ∧
    (check_superclaude envC5 cand0).success = true := by
  decide

/-- C5 amended: every candidate-probing invocation passes no timeout, so no
probe invocation is ever terminated as timed out, whatever the duration of
the child; a bounded invocation exists only in the post-selection
test-command loop of test-bridge-functionality.py (timeout 5), where a child
whose duration exceeds 5 is forcibly terminated and reported timed out. -/
theorem probe_timeout_semantics :
    (∀ sp : SpawnResult, subprocessRun sp none ≠ RunOutcome.timeoutExpired) ∧
    (∀ (env : ProbeEnv) (c : Candidate),
      subprocessRun (env.importRun c.path) none ≠
        RunOutcome.timeoutExpired) ∧
    (∀ b : ChildBehavior, 5 < b.duration →
      runTestCommand (SpawnResult.runs b) = TestCmdOutcome.timedOut) := by
  refine ⟨?_, ?_, ?_⟩
  · intro sp
    cases sp <;> simp [subprocessRun]
  · intro env c
    cases h : env.importRun c.path <;> simp [subprocessRun]
  · intro b hb
    have hrun : subprocessRun (SpawnResult.runs b) (some 5) =
        RunOutcome.timeoutExpired := by
      simp [subprocessRun, hb]
    unfold runTestCommand
    rw [hrun]

/-- Witness for the amended C5 at a concrete input: a test command whose
child takes 6 time units exceeds the 5-unit timeout and is reported timed
out. -/
theorem probe_timeout_semantics_witness :
    5 < (6 : Nat) ∧
    runTestCommand
      (SpawnResult.runs
        { duration := 6, returncode := 0, stdout := "OK", stderr := "" }) =
      TestCmdOutcome.timedOut :=
  ⟨by decide,
   probe_timeout_semantics.2.2
     { duration := 6, returncode := 0, stdout := "OK", stderr := "" }
     (by decide)⟩

/-- Counterexample to C6 as stated: none of the scripts checks for an empty
candidate list; on the empty list the probe simply returns a ProbeReport with
no results and no selected candidate instead of failing with InvalidInput,
and the selection loops return no selection. -/
theorem probe_empty_list_refuted :
    probe envW1 [] = { results := [], selected := none } ∧
    pythonCmdLoop envW1.importRun [] = none ∧
    simpleFixLoop envW1.importRun [] none = ([], none) :=
  ⟨rfl, rfl, rfl⟩

/-- C6 amended: probe over an empty candidate list returns a ProbeReport with
an empty results list and no selected candidate, and the selection loops
return their accumulators unchanged; the probe loops are total and have no
failure mode at all (no InvalidInput error exists in the scripts). -/
theorem probe_empty_list_returns_empty_report :
    ∀ (env : ProbeEnv) (run : String → SpawnResult) (wp : Option String),
      probe env [] = { results := [], selected := none } ∧
      pythonCmdLoop run [] = none ∧
      simpleFixLoop run [] wp = ([], wp) :=
  fun _ _ _ => ⟨rfl, rfl, rfl⟩

/-- Counterexample to C8 as stated: the import check completes with exit 0
and the sentinel, but the follow-up details invocation raises
FileNotFoundError; because the details call sits inside the same try block
(verify-superclaude.py lines 21-28), the handler returns False and the
candidate does NOT remain success = true. -/
theorem details_failure_downgrade_refuted :
    envC8.importRun cand0.path =
      SpawnResult.runs
        { duration := 1, returncode := 0, stdout := "OK", stderr := "" } ∧
    envC8.detailsRun cand0.path = SpawnResult.notFound ∧
    (check_superclaude envC8 cand0).success = false := by
  decide

/-- C8 amended: the details invocation is best-effort only against completed
runs: when the details child runs, the candidate stays success = true whatever
the details exit code, and a non-zero details exit merely drops the metadata;
but when the details invocation raises, the shared exception handler
downgrades the candidate to success = false. -/
theorem details_best_effort (env : ProbeEnv) (c : Candidate)
    (b : ChildBehavior)
    (hb : env.importRun c.path = SpawnResult.runs b)
    (hrc : b.returncode = 0) (hs : sentinelIn b.stdout = true) :
    (∀ db : ChildBehavior, env.detailsRun c.path = SpawnResult.runs db →
      (check_superclaude env c).success = true ∧
      (db.returncode ≠ 0 → (check_superclaude env c).metadata = none)) ∧
    (spawnRaises (env.detailsRun c.path) = true →
      (check_superclaude env c).success = false) := by
  constructor
  · intro db hdb
    rw [check_eq_success env c b db hb ⟨hrc, hs⟩ hdb]
    refine ⟨rfl, fun h => ?_⟩
    show (if db.returncode = 0 then some db.stdout.trim else none) = none
    exact if_neg h
  · intro hdb
    exact check_details_raise env c b hb ⟨hrc, hs⟩ hdb

/-- Witness for the amended C8 at a concrete input: under envW8 the import
check succeeds and the details child runs but exits 1; the candidate stays
success = true and carries no metadata. -/
theorem details_best_effort_witness :
    envW8.importRun cand0.path =
      SpawnResult.runs
        { duration := 1, returncode := 0, stdout := "OK", stderr := "" } ∧
    ((check_superclaude envW8 cand0).success = true ∧
     ((1 : Int) ≠ 0 → (check_superclaude envW8 cand0).metadata = none)) :=
  ⟨by decide,
   (details_best_effort envW8 cand0
     { duration := 1, returncode := 0, stdout := "OK", stderr := "" }
     (by decide) (by decide) (by decide)).1
     { duration := 1, returncode := 1, stdout := "", stderr := "boom" }
     (by decide)⟩

/-- A falsy path (unset variable or empty string) makes the test-simple-fix
loop print Not set and continue without spawning: only a notSet entry is
produced and the working_python accumulator is untouched. -/
theorem simpleFixLoop_falsy_head (run : String → SpawnResult) (n : String)
    (p : Option String) (rest : List (String × Option String))
    (wp : Option String) (hp : strOptFalsy p = true) :
    simpleFixLoop run ((n, p) :: rest) wp =
      (FixEntry.notSet n :: (simpleFixLoop run rest wp).1,
       (simpleFixLoop run rest wp).2) := by
  cases p with
  | none => rfl
  | some s =>
      have hs : s = "" := by simpa [strOptFalsy] using hp
      subst hs
      simp [simpleFixLoop]

/-- Inserting a falsy candidate anywhere in the test-simple-fix candidate
list leaves the resulting working_python unchanged. -/
theorem simpleFixLoop_skip_falsy (run : String → SpawnResult) (n : String)
    (p : Option String) (hp : strOptFalsy p = true)
    (post : List (String × Option String)) :
    ∀ (pre : List (String × Option String)) (wp : Option String),
      (simpleFixLoop run (pre ++ (n, p) :: post) wp).2 =
        (simpleFixLoop run (pre ++ post) wp).2 := by
  intro pre
  induction pre with
  | nil =>
      intro wp
      rw [List.nil_append, List.nil_append,
        simpleFixLoop_falsy_head run n p post wp hp]
  | cons hd tl ih =>
      intro wp
      obtain ⟨hn, hp2⟩ := hd
      cases hp2 with
      | none =>
          simp only [List.cons_append, simpleFixLoop]
          exact ih wp
      | some s =>
          by_cases hse : s = ""
          · subst hse
            simp only [List.cons_append, simpleFixLoop, if_pos rfl]
            exact ih wp
          · simp only [List.cons_append, simpleFixLoop, if_neg hse]
            cases hr : subprocessRun (run s) none with
            | completed rc out err =>
                by_cases hrc : rc = 0
                · simp only [if_pos hrc]
                  exact ih _
                · simp only [if_neg hrc]
                  exact ih wp
            | fileNotFound => exact ih wp
            | exn m => exact ih wp
            | timeoutExpired => exact ih wp

/-- Inserting an empty token anywhere in the python_cmd candidate list leaves
the selection of the test-bridge loop unchanged. -/
theorem pythonCmdLoop_skip_empty (run : String → SpawnResult)
    (post : List String) :
    ∀ pre : List String,
      pythonCmdLoop run (pre ++ "" :: post) = pythonCmdLoop run (pre ++ post) := by
  intro pre
  induction pre with
  | nil => rfl
  | cons py tl ih =>
      by_cases hpy : py = ""
      · subst hpy
        simp only [List.cons_append, pythonCmdLoop, if_pos rfl]
        exact ih
      · simp only [List.cons_append, pythonCmdLoop, if_neg hpy]
        cases hr : subprocessRun (run py) none with
        | completed rc out err =>
            by_cases hrc : rc = 0
            · simp only [if_pos hrc]
            · simp only [if_neg hrc]
              exact ih
        | fileNotFound => exact ih
        | exn m => exact ih
        | timeoutExpired => exact ih

/-- C10: a candidate whose path token is empty or unset is skipped entirely:
the python_cmd loop of test-bridge-functionality.py produces the same
selection with an empty token inserted anywhere as without it, the
test-simple-fix loop produces the same working_python with a falsy candidate
inserted anywhere, and at the head such a candidate contributes only a
Not set line, never a success or failure probe entry (no child is spawned:
the loop never consults the spawn environment for it). -/
theorem empty_candidate_skipped (run : String → SpawnResult)
    (pre post : List String) (pre2 post2 : List (String × Option String))
    (n : String) (p : Option String) (wp : Option String)
    (hp : strOptFalsy p = true) :
    pythonCmdLoop run (pre ++ "" :: post) = pythonCmdLoop run (pre ++ post) ∧
    (simpleFixLoop run (pre2 ++ (n, p) :: post2) wp).2 =
      (simpleFixLoop run (pre2 ++ post2) wp).2 ∧
    simpleFixLoop run ((n, p) :: post2) wp =
      (FixEntry.notSet n :: (simpleFixLoop run post2 wp).1,
       (simpleFixLoop run post2 wp).2) :=
  ⟨pythonCmdLoop_skip_empty run post pre,
   simpleFixLoop_skip_falsy run n p hp post2 pre2 wp,
   simpleFixLoop_falsy_head run n p post2 wp hp⟩

/-- Witness for C10 at a concrete input: an unset SUPERCLAUDE_PYTHON
candidate inserted between two real candidates changes nothing, and at the
head it contributes only a Not set line. -/
theorem empty_candidate_skipped_witness :
    strOptFalsy none = true ∧
    (pythonCmdLoop envW1.importRun (["python3"] ++ "" :: ["venv/bin/python"]) =
       pythonCmdLoop envW1.importRun (["python3"] ++ ["venv/bin/python"]) ∧
     (simpleFixLoop envW1.importRun
        ([("System python3", some "python3")] ++
          ("SUPERCLAUDE_PYTHON", (none : Option String)) ::
            [("Venv python", some "venv/bin/python")]) none).2 =
       (simpleFixLoop envW1.importRun
        ([("System python3", some "python3")] ++
          [("Venv python", some "venv/bin/python")]) none).2 ∧
     simpleFixLoop envW1.importRun
        (("SUPERCLAUDE_PYTHON", (none : Option String)) ::
          [("Venv python", some "venv/bin/python")]) none =
       (FixEntry.notSet "SUPERCLAUDE_PYTHON" ::
          (simpleFixLoop envW1.importRun
            [("Venv python", some "venv/bin/python")] none).1,
        (simpleFixLoop envW1.importRun
            [("Venv python", some "venv/bin/python")] none).2)) :=
  ⟨by decide,
   empty_candidate_skipped envW1.importRun ["python3"] ["venv/bin/python"]
     [("System python3", some "python3")]
     [("Venv python", some "venv/bin/python")]
     "SUPERCLAUDE_PYTHON" none none (by decide)⟩
